import Mathlib

/-!
Shallow embedding of the scenario simulation engine of `src/app.py`
(class `FinancialSimulator`, method `simulate_scenario`, and the numeric
core of `_display_comparison_results`).

Monetary amounts and rates are modelled as rationals (`ℚ`); the Python
code uses floats, but every claim under scrutiny is about the exact
arithmetic of the algorithm.  The year loop `for year in range(years)`
becomes a recursion on `ℕ`; the loop's local accumulator variables
become the fields of `SimState`.  `yearly_data[years - 1]`, which raises
`IndexError` in Python when `yearly_data` is empty, becomes an `Option`
lookup, so `simulate_scenario` returns `Option SimulationResult` and is
`none` exactly when the Python code raises.
-/

/-- One entry of `scenario["major_expenses"]`: `{name, amount, year}`. -/
structure MajorExpense where
  name : String
  amount : ℚ
  year : ℕ

/-- One entry of `scenario["career_changes"]`: `{year, new_salary, new_growth_rate}`. -/
structure CareerChange where
  year : ℕ
  new_salary : ℚ
  new_growth_rate : ℚ

/-- The scenario record consumed by `simulate_scenario` (the keys it reads). -/
structure Scenario where
  starting_age : ℤ
  starting_salary : ℚ
  salary_growth_rate : ℚ
  monthly_expenses : ℚ
  savings_rate : ℚ
  investment_return_rate : ℚ
  student_debt : ℚ
  major_expenses : List MajorExpense
  career_changes : List CareerChange

/-- The numeric fields of one `year_data_entry` dict appended to
`yearly_data` (the `events` list of display strings is not modelled). -/
structure YearRecord where
  year_idx : ℕ
  year_display : ℕ
  age : ℤ
  gross_salary : ℚ
  taxes : ℚ
  after_tax_income : ℚ
  living_expenses_inflation_adj : ℚ
  inflation_multiplier : ℚ
  monthly_expenses_base : ℚ
  monthly_expenses_display : ℚ
  major_expenses_this_year : ℚ
  debt_payment_this_year : ℚ
  emergency_fund_target : ℚ
  emergency_fund_contrib : ℚ
  investment_contrib : ℚ
  investment_growth_this_year : ℚ
  annual_total_savings : ℚ
  liquid_savings_total : ℚ
  investment_portfolio_total : ℚ
  debt_balance_current : ℚ
  net_worth : ℚ

/-- The `summary` dict of the returned result. -/
structure Summary where
  total_earned : ℚ
  total_taxes : ℚ
  total_saved : ℚ
  total_spent : ℚ
  final_net_worth : ℚ
  final_age : ℤ
  liquid_savings_final : ℚ
  investment_portfolio_final : ℚ
  remaining_debt_final : ℚ
  fi_target : ℚ
  fi_achieved : Bool
  fi_age : Option ℤ
  fi_year_achieved : Option ℕ

/-- The dict returned by `simulate_scenario`. -/
structure SimulationResult where
  yearly_data : List YearRecord
  summary : Summary

/-- The loop-carried local variables of `simulate_scenario`. -/
structure SimState where
  current_salary : ℚ
  current_growth_rate : ℚ
  net_worth : ℚ
  liquid_savings : ℚ
  investment_portfolio : ℚ
  total_earned : ℚ
  total_saved : ℚ
  total_spent : ℚ
  total_taxes : ℚ
  debt_balance : ℚ
  yearly_data : List YearRecord

/-- The loop `for change in scenario.get("career_changes", []): if change["year"] == year: ...`
— each matching entry overwrites the pair, so the last match in list order
wins. -/
def careerPair (changes : List CareerChange) (year : ℕ) (sal gr : ℚ) : ℚ × ℚ :=
  changes.foldl (fun p c => if c.year = year then (c.new_salary, c.new_growth_rate) else p)
    (sal, gr)

/-- The loop `for expense in scenario.get("major_expenses", []): if expense["year"] == year:
major_expense_this_year += expense["amount"] * inflation_multiplier`. -/
def majorExpensesThisYear (exps : List MajorExpense) (year : ℕ) (mult : ℚ) : ℚ :=
  exps.foldl (fun acc e => if e.year = year then acc + e.amount * mult else acc) 0

/-- The debt block: returns `(debt_payment_this_year, new debt_balance)`.
`if debt_balance > 0 and scenario.get("student_debt",0) > 0:` then
`payment = min(student_debt / 10, debt_balance)`; the balance decreases by the
payment and is clamped with `max(0, ...)`. -/
def debtStep (student_debt balance : ℚ) : ℚ × ℚ :=
  if 0 < balance ∧ 0 < student_debt then
    let fixed_annual_debt_payment := student_debt / 10
    let pay := min fixed_annual_debt_payment balance
    (pay, max 0 (balance - pay))
  else (0, balance)

/-- The emergency-fund block: returns
`(emergency_fund_contribution, new liquid_savings, new available_for_savings)`.
`if liquid_savings < emergency_fund_target and available_for_savings > 0:`
then contribute `min(available_for_savings * 0.5, target - liquid_savings)`. -/
def efStep (target liquid avail : ℚ) : ℚ × ℚ × ℚ :=
  if liquid < target ∧ 0 < avail then
    let c := min (avail * (0.5 : ℚ)) (target - liquid)
    (c, liquid + c, avail - c)
  else (0, liquid, avail)

/-- The `year_data_entry` built by one pass of the loop body, from the state at
the top of that iteration. -/
def stepRecord (sc : Scenario) (inflation_rate tax_rate : ℚ) (year : ℕ)
    (st : SimState) : YearRecord :=
  let cp := careerPair sc.career_changes year st.current_salary st.current_growth_rate
  let inflation_multiplier : ℚ := (1 + inflation_rate) ^ year
  let monthly_expenses_adjusted := sc.monthly_expenses * inflation_multiplier
  let annual_living_expenses := monthly_expenses_adjusted * 12
  let annual_income := cp.1 * (1 + cp.2) ^ year
  let annual_taxes := annual_income * tax_rate
  let after_tax_income := annual_income - annual_taxes
  let major_expense_this_year := majorExpensesThisYear sc.major_expenses year inflation_multiplier
  let dp := debtStep sc.student_debt st.debt_balance
  let available_for_savings :=
    after_tax_income - annual_living_expenses - major_expense_this_year - dp.1
  let emergency_fund_target := monthly_expenses_adjusted * 6
  let ef := efStep emergency_fund_target st.liquid_savings available_for_savings
  let investment_contribution := max 0 (ef.2.2 * sc.savings_rate)
  let investment_growth_this_year := st.investment_portfolio * sc.investment_return_rate
  let new_portfolio := st.investment_portfolio + investment_contribution + investment_growth_this_year
  { year_idx := year
    year_display := year + 1
    age := sc.starting_age + (year : ℤ)
    gross_salary := annual_income
    taxes := annual_taxes
    after_tax_income := after_tax_income
    living_expenses_inflation_adj := annual_living_expenses
    inflation_multiplier := inflation_multiplier
    monthly_expenses_base := sc.monthly_expenses
    monthly_expenses_display := monthly_expenses_adjusted
    major_expenses_this_year := major_expense_this_year
    debt_payment_this_year := dp.1
    emergency_fund_target := emergency_fund_target
    emergency_fund_contrib := ef.1
    investment_contrib := investment_contribution
    investment_growth_this_year := investment_growth_this_year
    annual_total_savings := ef.1 + investment_contribution
    liquid_savings_total := ef.2.1
    investment_portfolio_total := new_portfolio
    debt_balance_current := dp.2
    net_worth := ef.2.1 + new_portfolio - dp.2 }

/-- One pass of the loop body: the updated accumulator variables, with the new
`year_data_entry` appended to `yearly_data`.  Every running total in the
Python body is recoverable from the record (the record stores the updated
balances), which the definition makes explicit. -/
def simStep (sc : Scenario) (inflation_rate tax_rate : ℚ) (year : ℕ)
    (st : SimState) : SimState :=
  let r := stepRecord sc inflation_rate tax_rate year st
  let cp := careerPair sc.career_changes year st.current_salary st.current_growth_rate
  { current_salary := cp.1
    current_growth_rate := cp.2
    net_worth := r.net_worth
    liquid_savings := r.liquid_savings_total
    investment_portfolio := r.investment_portfolio_total
    total_earned := st.total_earned + r.gross_salary
    total_saved := st.total_saved + r.annual_total_savings
    total_spent := st.total_spent + r.living_expenses_inflation_adj + r.major_expenses_this_year
    total_taxes := st.total_taxes + r.taxes
    debt_balance := r.debt_balance_current
    yearly_data := st.yearly_data ++ [r] }

/-- The initialisation of the tracking variables before the loop. -/
def initState (sc : Scenario) : SimState :=
  { current_salary := sc.starting_salary
    current_growth_rate := sc.salary_growth_rate
    net_worth := 0
    liquid_savings := 0
    investment_portfolio := 0
    total_earned := 0
    total_saved := 0
    total_spent := 0
    total_taxes := 0
    debt_balance := sc.student_debt
    yearly_data := [] }

/-- The loop `for year in range(years)` run to completion: the state after `years`
iterations. -/
def runYears (sc : Scenario) (inflation_rate tax_rate : ℚ) : ℕ → SimState
  | 0 => initState sc
  | n + 1 => simStep sc inflation_rate tax_rate n (runYears sc inflation_rate tax_rate n)

/-- The FI block after the loop:
`fi_target = current_year_expenses / 0.04 if current_year_expenses > 0 else 0`. -/
def fiTargetOf (current_year_expenses : ℚ) : ℚ :=
  if 0 < current_year_expenses then current_year_expenses / (0.04 : ℚ) else 0

/-- The `for i, year_data_entry in enumerate(yearly_data): if ... >= fi_target:
... break` scan: the first record whose investment portfolio reaches the
target. -/
def fiScan (fi_target : ℚ) (yearly : List YearRecord) : Option YearRecord :=
  yearly.find? (fun r => decide (fi_target ≤ r.investment_portfolio_total))

/-- The `summary` dict assembled from the loop accumulators and the FI scan,
given the record read as `yearly_data[years-1]`. -/
def mkSummary (sc : Scenario) (years : ℕ) (st : SimState) (lastRec : YearRecord) : Summary :=
  let fi_target := fiTargetOf lastRec.living_expenses_inflation_adj
  let fiRec := fiScan fi_target st.yearly_data
  { total_earned := st.total_earned
    total_taxes := st.total_taxes
    total_saved := st.total_saved
    total_spent := st.total_spent
    final_net_worth := st.net_worth
    final_age := sc.starting_age + (years : ℤ)
    liquid_savings_final := st.liquid_savings
    investment_portfolio_final := st.investment_portfolio
    remaining_debt_final := st.debt_balance
    fi_target := fi_target
    fi_achieved := fiRec.isSome
    fi_age := fiRec.map (·.age)
    fi_year_achieved := fiRec.map (·.year_display) }

/-- The method `simulate_scenario`.  After the loop the Python code reads
`yearly_data[years-1]` (an `IndexError` — hence `none` — when the list is
empty, i.e. when `years = 0`), computes the FI target with the
`if current_year_expenses > 0 else 0` guard, scans `yearly_data` in order for
the first record whose `investment_portfolio_total` reaches the target, and
assembles the summary from the loop accumulators. -/
def simulate_scenario (sc : Scenario) (years : ℕ)
    (inflation_rate tax_rate : ℚ) : Option SimulationResult :=
  let st := runYears sc inflation_rate tax_rate years
  match st.yearly_data[years - 1]? with
  | none => none
  | some lastRec => some { yearly_data := st.yearly_data, summary := mkSummary sc years st lastRec }

/-- The line `net_worth_diff = s2["final_net_worth"] - s1["final_net_worth"]` of
`_display_comparison_results` (results1 is `s1`, results2 is `s2`). -/
def net_worth_diff (s1 s2 : Summary) : ℚ :=
  s2.final_net_worth - s1.final_net_worth

/-- The line `earned_diff = s2["total_earned"] - s1["total_earned"]` of
`_display_comparison_results`. -/
def earned_diff (s1 s2 : Summary) : ℚ :=
  s2.total_earned - s1.total_earned

/-! ### Structural lemmas: one loop iteration -/

theorem simStep_yearly_data (sc : Scenario) (i t : ℚ) (y : ℕ) (st : SimState) :
    (simStep sc i t y st).yearly_data = st.yearly_data ++ [stepRecord sc i t y st] := rfl

theorem simStep_debt_balance (sc : Scenario) (i t : ℚ) (y : ℕ) (st : SimState) :
    (simStep sc i t y st).debt_balance = (stepRecord sc i t y st).debt_balance_current := rfl

theorem simStep_liquid (sc : Scenario) (i t : ℚ) (y : ℕ) (st : SimState) :
    (simStep sc i t y st).liquid_savings = (stepRecord sc i t y st).liquid_savings_total := rfl

theorem simStep_portfolio (sc : Scenario) (i t : ℚ) (y : ℕ) (st : SimState) :
    (simStep sc i t y st).investment_portfolio
      = (stepRecord sc i t y st).investment_portfolio_total := rfl

theorem simStep_net_worth (sc : Scenario) (i t : ℚ) (y : ℕ) (st : SimState) :
    (simStep sc i t y st).net_worth = (stepRecord sc i t y st).net_worth := rfl

theorem stepRecord_year_idx (sc : Scenario) (i t : ℚ) (y : ℕ) (st : SimState) :
    (stepRecord sc i t y st).year_idx = y := rfl

theorem stepRecord_year_display (sc : Scenario) (i t : ℚ) (y : ℕ) (st : SimState) :
    (stepRecord sc i t y st).year_display = y + 1 := rfl

theorem stepRecord_age (sc : Scenario) (i t : ℚ) (y : ℕ) (st : SimState) :
    (stepRecord sc i t y st).age = sc.starting_age + (y : ℤ) := rfl

theorem stepRecord_living (sc : Scenario) (i t : ℚ) (y : ℕ) (st : SimState) :
    (stepRecord sc i t y st).living_expenses_inflation_adj
      = sc.monthly_expenses * (1 + i) ^ y * 12 := rfl

theorem stepRecord_ef_target (sc : Scenario) (i t : ℚ) (y : ℕ) (st : SimState) :
    (stepRecord sc i t y st).emergency_fund_target
      = sc.monthly_expenses * (1 + i) ^ y * 6 := rfl

theorem stepRecord_debt_payment (sc : Scenario) (i t : ℚ) (y : ℕ) (st : SimState) :
    (stepRecord sc i t y st).debt_payment_this_year
      = (debtStep sc.student_debt st.debt_balance).1 := rfl

theorem stepRecord_debt_balance (sc : Scenario) (i t : ℚ) (y : ℕ) (st : SimState) :
    (stepRecord sc i t y st).debt_balance_current
      = (debtStep sc.student_debt st.debt_balance).2 := rfl

theorem stepRecord_growth (sc : Scenario) (i t : ℚ) (y : ℕ) (st : SimState) :
    (stepRecord sc i t y st).investment_growth_this_year
      = st.investment_portfolio * sc.investment_return_rate := rfl

theorem stepRecord_portfolio_total (sc : Scenario) (i t : ℚ) (y : ℕ) (st : SimState) :
    (stepRecord sc i t y st).investment_portfolio_total
      = st.investment_portfolio + (stepRecord sc i t y st).investment_contrib
          + (stepRecord sc i t y st).investment_growth_this_year := rfl

theorem stepRecord_net_worth_eq (sc : Scenario) (i t : ℚ) (y : ℕ) (st : SimState) :
    (stepRecord sc i t y st).net_worth
      = (stepRecord sc i t y st).liquid_savings_total
          + (stepRecord sc i t y st).investment_portfolio_total
          - (stepRecord sc i t y st).debt_balance_current := rfl

theorem stepRecord_contrib_nonneg (sc : Scenario) (i t : ℚ) (y : ℕ) (st : SimState) :
    0 ≤ (stepRecord sc i t y st).investment_contrib := le_max_left _ _

theorem stepRecord_liquid_eq (sc : Scenario) (i t : ℚ) (y : ℕ) (st : SimState) :
    ∃ avail, (stepRecord sc i t y st).liquid_savings_total
        = (efStep ((stepRecord sc i t y st).emergency_fund_target) st.liquid_savings avail).2.1
      ∧ (stepRecord sc i t y st).emergency_fund_contrib
        = (efStep ((stepRecord sc i t y st).emergency_fund_target) st.liquid_savings avail).1 :=
  ⟨_, rfl, rfl⟩

/-! ### Behaviour of the debt and emergency-fund blocks -/

theorem debtStep_of_pos {student_debt balance : ℚ} (hb : 0 < balance) (hd : 0 < student_debt) :
    debtStep student_debt balance
      = (min (student_debt / 10) balance, max 0 (balance - min (student_debt / 10) balance)) := by
  simp [debtStep, hb, hd]

theorem debtStep_balance_nonneg {student_debt balance : ℚ} (hb : 0 ≤ balance) :
    0 ≤ (debtStep student_debt balance).2 := by
  unfold debtStep
  split
  · exact le_max_left _ _
  · exact hb

theorem debtStep_balance_le (student_debt balance : ℚ) :
    (debtStep student_debt balance).2 ≤ balance := by
  unfold debtStep
  split
  · rename_i h
    have hpay : 0 < min (student_debt / 10) balance :=
      lt_min (by linarith [h.2]) h.1
    simp only [max_le_iff]
    constructor <;> [exact le_of_lt h.1; linarith]
  · exact le_refl _

theorem efStep_contrib_nonneg (target liquid avail : ℚ) :
    0 ≤ (efStep target liquid avail).1 := by
  unfold efStep
  split
  · rename_i h
    exact le_min (by nlinarith [h.2]) (by linarith [h.1])
  · exact le_refl 0

theorem efStep_liquid_lower (target liquid avail : ℚ) :
    liquid ≤ (efStep target liquid avail).2.1 := by
  unfold efStep
  split
  · rename_i h
    show liquid ≤ liquid + min (avail * (0.5:ℚ)) (target - liquid)
    have h1 : (0:ℚ) < avail * (0.5:ℚ) := by nlinarith [h.2]
    have h2 : (0:ℚ) < target - liquid := by linarith [h.1]
    have := lt_min h1 h2
    linarith
  · exact le_refl _

theorem efStep_liquid_upper (target liquid avail : ℚ) :
    (efStep target liquid avail).2.1 ≤ max liquid target := by
  unfold efStep
  split
  · rename_i h
    have : min (avail * (0.5:ℚ)) (target - liquid) ≤ target - liquid := min_le_right _ _
    exact le_max_of_le_right (by linarith)
  · exact le_max_left _ _

theorem stepRecord_liquid_lower (sc : Scenario) (i t : ℚ) (y : ℕ) (st : SimState) :
    st.liquid_savings ≤ (stepRecord sc i t y st).liquid_savings_total := by
  obtain ⟨avail, h1, _⟩ := stepRecord_liquid_eq sc i t y st
  rw [h1]
  exact efStep_liquid_lower _ _ _

theorem stepRecord_liquid_upper (sc : Scenario) (i t : ℚ) (y : ℕ) (st : SimState) :
    (stepRecord sc i t y st).liquid_savings_total
      ≤ max st.liquid_savings ((stepRecord sc i t y st).emergency_fund_target) := by
  obtain ⟨avail, h1, _⟩ := stepRecord_liquid_eq sc i t y st
  rw [h1]
  exact efStep_liquid_upper _ _ _

theorem stepRecord_portfolio_lower (sc : Scenario) (i t : ℚ) (y : ℕ) (st : SimState)
    (hp : 0 ≤ st.investment_portfolio) (hret : 0 ≤ sc.investment_return_rate) :
    st.investment_portfolio ≤ (stepRecord sc i t y st).investment_portfolio_total := by
  rw [stepRecord_portfolio_total, stepRecord_growth]
  have hc := stepRecord_contrib_nonneg sc i t y st
  nlinarith

/-! ### The year loop -/

theorem runYears_succ (sc : Scenario) (i t : ℚ) (n : ℕ) :
    runYears sc i t (n + 1) = simStep sc i t n (runYears sc i t n) := rfl

theorem runYears_length (sc : Scenario) (i t : ℚ) (n : ℕ) :
    (runYears sc i t n).yearly_data.length = n := by
  induction n with
  | zero => rfl
  | succ n ih => rw [runYears_succ, simStep_yearly_data, List.length_append, ih]; rfl

theorem runYears_debt_succ (sc : Scenario) (i t : ℚ) (n : ℕ) :
    (runYears sc i t (n + 1)).debt_balance
      = (stepRecord sc i t n (runYears sc i t n)).debt_balance_current := rfl

theorem runYears_liquid_succ (sc : Scenario) (i t : ℚ) (n : ℕ) :
    (runYears sc i t (n + 1)).liquid_savings
      = (stepRecord sc i t n (runYears sc i t n)).liquid_savings_total := rfl

theorem runYears_portfolio_succ (sc : Scenario) (i t : ℚ) (n : ℕ) :
    (runYears sc i t (n + 1)).investment_portfolio
      = (stepRecord sc i t n (runYears sc i t n)).investment_portfolio_total := rfl

theorem runYears_net_worth_succ (sc : Scenario) (i t : ℚ) (n : ℕ) :
    (runYears sc i t (n + 1)).net_worth
      = (stepRecord sc i t n (runYears sc i t n)).net_worth := rfl

/-- Record `k` of the produced `yearly_data` is exactly the record built by
loop iteration `k` from the state after `k` iterations. -/
theorem runYears_getElem (sc : Scenario) (i t : ℚ) :
    ∀ {n k : ℕ}, k < n →
      (runYears sc i t n).yearly_data[k]?
        = some (stepRecord sc i t k (runYears sc i t k)) := by
  intro n
  induction n with
  | zero => intro k hk; exact absurd hk (Nat.not_lt_zero k)
  | succ n ih =>
    intro k hk
    rw [runYears_succ, simStep_yearly_data]
    rcases Nat.lt_or_ge k n with h | h
    · rw [List.getElem?_append_left (by rw [runYears_length]; exact h)]
      exact ih h
    · have hk' : k = n := by omega
      subst hk'
      rw [List.getElem?_append_right (by rw [runYears_length])]
      rw [runYears_length]
      simp

theorem runYears_debt_nonneg (sc : Scenario) (i t : ℚ) (hd : 0 ≤ sc.student_debt) :
    ∀ n, 0 ≤ (runYears sc i t n).debt_balance := by
  intro n
  induction n with
  | zero => exact hd
  | succ n ih =>
    rw [runYears_debt_succ, stepRecord_debt_balance]
    exact debtStep_balance_nonneg ih

theorem runYears_debt_le_init (sc : Scenario) (i t : ℚ) :
    ∀ n, (runYears sc i t n).debt_balance ≤ sc.student_debt := by
  intro n
  induction n with
  | zero => exact le_refl _
  | succ n ih =>
    rw [runYears_debt_succ, stepRecord_debt_balance]
    exact le_trans (debtStep_balance_le _ _) ih

theorem runYears_liquid_nonneg (sc : Scenario) (i t : ℚ) :
    ∀ n, 0 ≤ (runYears sc i t n).liquid_savings := by
  intro n
  induction n with
  | zero => exact le_refl 0
  | succ n ih =>
    rw [runYears_liquid_succ]
    exact le_trans ih (stepRecord_liquid_lower sc i t n (runYears sc i t n))

theorem runYears_portfolio_nonneg (sc : Scenario) (i t : ℚ)
    (hret : 0 ≤ sc.investment_return_rate) :
    ∀ n, 0 ≤ (runYears sc i t n).investment_portfolio := by
  intro n
  induction n with
  | zero => exact le_refl 0
  | succ n ih =>
    rw [runYears_portfolio_succ]
    exact le_trans ih (stepRecord_portfolio_lower sc i t n (runYears sc i t n) ih hret)

/-- The emergency-fund invariant carried across years: after `n` iterations
the liquid-savings balance is at most the year-`n` emergency-fund target. -/
theorem runYears_liquid_le_target (sc : Scenario) (i t : ℚ)
    (hm : 0 ≤ sc.monthly_expenses) (hi : 0 ≤ i) :
    ∀ n, (runYears sc i t n).liquid_savings ≤ sc.monthly_expenses * (1 + i) ^ n * 6 := by
  intro n
  induction n with
  | zero =>
    show (0:ℚ) ≤ sc.monthly_expenses * (1 + i) ^ 0 * 6
    simpa using by positivity
  | succ n ih =>
    have hup := stepRecord_liquid_upper sc i t n (runYears sc i t n)
    rw [stepRecord_ef_target] at hup
    have hmax : max (runYears sc i t n).liquid_savings (sc.monthly_expenses * (1 + i) ^ n * 6)
        ≤ sc.monthly_expenses * (1 + i) ^ n * 6 := max_le ih (le_refl _)
    have hpow : (0:ℚ) ≤ (1 + i) ^ n := by positivity
    have hsucc : (1 + i) ^ (n + 1) = (1 + i) ^ n * (1 + i) := pow_succ _ _
    have hmono : sc.monthly_expenses * (1 + i) ^ n * 6
        ≤ sc.monthly_expenses * (1 + i) ^ (n + 1) * 6 := by
      rw [hsucc]; nlinarith [mul_nonneg (mul_nonneg hm hpow) hi]
    rw [runYears_liquid_succ]
    exact le_trans hup (le_trans hmax hmono)

/-! ### Destructuring `simulate_scenario` -/

theorem mkSummary_fi_target (sc : Scenario) (years : ℕ) (st : SimState) (lastRec : YearRecord) :
    (mkSummary sc years st lastRec).fi_target
      = fiTargetOf lastRec.living_expenses_inflation_adj := rfl

theorem mkSummary_fi_achieved (sc : Scenario) (years : ℕ) (st : SimState) (lastRec : YearRecord) :
    (mkSummary sc years st lastRec).fi_achieved
      = (fiScan (fiTargetOf lastRec.living_expenses_inflation_adj) st.yearly_data).isSome := rfl

theorem mkSummary_fi_age (sc : Scenario) (years : ℕ) (st : SimState) (lastRec : YearRecord) :
    (mkSummary sc years st lastRec).fi_age
      = (fiScan (fiTargetOf lastRec.living_expenses_inflation_adj) st.yearly_data).map (·.age) := rfl

theorem mkSummary_fi_year (sc : Scenario) (years : ℕ) (st : SimState) (lastRec : YearRecord) :
    (mkSummary sc years st lastRec).fi_year_achieved
      = (fiScan (fiTargetOf lastRec.living_expenses_inflation_adj) st.yearly_data).map
          (·.year_display) := rfl

theorem mkSummary_final_net_worth (sc : Scenario) (years : ℕ) (st : SimState) (lastRec : YearRecord) :
    (mkSummary sc years st lastRec).final_net_worth = st.net_worth := rfl

theorem mkSummary_liquid (sc : Scenario) (years : ℕ) (st : SimState) (lastRec : YearRecord) :
    (mkSummary sc years st lastRec).liquid_savings_final = st.liquid_savings := rfl

theorem mkSummary_portfolio (sc : Scenario) (years : ℕ) (st : SimState) (lastRec : YearRecord) :
    (mkSummary sc years st lastRec).investment_portfolio_final = st.investment_portfolio := rfl

theorem mkSummary_debt (sc : Scenario) (years : ℕ) (st : SimState) (lastRec : YearRecord) :
    (mkSummary sc years st lastRec).remaining_debt_final = st.debt_balance := rfl

theorem mkSummary_final_age (sc : Scenario) (years : ℕ) (st : SimState) (lastRec : YearRecord) :
    (mkSummary sc years st lastRec).final_age = sc.starting_age + (years : ℤ) := rfl

theorem simulate_zero (sc : Scenario) (i t : ℚ) : simulate_scenario sc 0 i t = none := rfl

theorem simulate_eq_some (sc : Scenario) (i t : ℚ) {years : ℕ} (hy : 1 ≤ years) :
    ∃ lastRec, (runYears sc i t years).yearly_data[years - 1]? = some lastRec
      ∧ simulate_scenario sc years i t
          = some { yearly_data := (runYears sc i t years).yearly_data
                   summary := mkSummary sc years (runYears sc i t years) lastRec } := by
  have hlt : years - 1 < (runYears sc i t years).yearly_data.length := by
    rw [runYears_length]; omega
  refine ⟨_, List.getElem?_eq_getElem hlt, ?_⟩
  simp only [simulate_scenario]
  rw [List.getElem?_eq_getElem hlt]

theorem simulate_some_inv (sc : Scenario) (i t : ℚ) {years : ℕ} {r : SimulationResult}
    (hr : simulate_scenario sc years i t = some r) :
    1 ≤ years ∧ r.yearly_data = (runYears sc i t years).yearly_data
      ∧ ∃ lastRec, (runYears sc i t years).yearly_data[years - 1]? = some lastRec
          ∧ r.summary = mkSummary sc years (runYears sc i t years) lastRec := by
  simp only [simulate_scenario] at hr
  rcases hlast : (runYears sc i t years).yearly_data[years - 1]? with _ | lastRec
  · rw [hlast] at hr
    exact absurd hr (by simp)
  · rw [hlast] at hr
    have heq := Option.some.inj hr
    refine ⟨?_, ?_, lastRec, rfl, ?_⟩
    · rcases Nat.eq_zero_or_pos years with h0 | h1
      · subst h0
        simp [runYears, initState] at hlast
      · exact h1
    · rw [← heq]
    · rw [← heq]

theorem simulate_total (sc : Scenario) (i t : ℚ) {years : ℕ} (hy : 1 ≤ years) :
    ∃ r, simulate_scenario sc years i t = some r ∧ r.yearly_data.length = years := by
  obtain ⟨lastRec, hlast, heq⟩ := simulate_eq_some sc i t hy
  exact ⟨_, heq, by simp [runYears_length]⟩

/-- A first-index lemma: `List.find?` returns the element at the first index satisfying the
predicate. -/
theorem find_of_first {α : Type} (p : α → Bool) :
    ∀ (l : List α) (j : ℕ) (x : α), l[j]? = some x → p x = true →
      (∀ k y, k < j → l[k]? = some y → p y = false) → l.find? p = some x := by
  intro l
  induction l with
  | nil => intro j x hx; simp at hx
  | cons a as ih =>
    intro j x hx hpx hmin
    cases j with
    | zero =>
      simp only [List.getElem?_cons_zero, Option.some.injEq] at hx
      subst hx
      exact List.find?_cons_of_pos _ hpx
    | succ j =>
      have ha : p a = false := hmin 0 a (Nat.succ_pos j) (by simp)
      rw [List.find?_cons_of_neg _ (by simp [ha])]
      apply ih j x
      · simpa using hx
      · exact hpx
      · intro k y hk hky
        exact hmin (k + 1) y (by omega) (by simpa using hky)

/-! ### Concrete scenarios and runs -/

/-- The spec's scenario example 1. -/
def ex1 : Scenario :=
  { starting_age := 25
    starting_salary := 60000
    salary_growth_rate := 3/100
    monthly_expenses := 2000
    savings_rate := 2/10
    investment_return_rate := 7/100
    student_debt := 0
    major_expenses := []
    career_changes := [] }

/-- What `simulate_scenario ex1 1 0.03 0.25` actually produces.  The
emergency-fund contribution is `min(0.5 × 21000, 12000) = 10500` (the code's
factor is `0.5`, not the spec's `0.3`), so the remaining disposable income is
`10500`, the investment contribution `10500 × 0.2 = 2100`, and the ending net
worth `10500 + 2100 = 12600`. -/
def ex1Result : SimulationResult :=
  { yearly_data :=
      [{ year_idx := 0
         year_display := 1
         age := 25
         gross_salary := 60000
         taxes := 15000
         after_tax_income := 45000
         living_expenses_inflation_adj := 24000
         inflation_multiplier := 1
         monthly_expenses_base := 2000
         monthly_expenses_display := 2000
         major_expenses_this_year := 0
         debt_payment_this_year := 0
         emergency_fund_target := 12000
         emergency_fund_contrib := 10500
         investment_contrib := 2100
         investment_growth_this_year := 0
         annual_total_savings := 12600
         liquid_savings_total := 10500
         investment_portfolio_total := 2100
         debt_balance_current := 0
         net_worth := 12600 }]
    summary :=
      { total_earned := 60000
        total_taxes := 15000
        total_saved := 12600
        total_spent := 24000
        final_net_worth := 12600
        final_age := 26
        liquid_savings_final := 10500
        investment_portfolio_final := 2100
        remaining_debt_final := 0
        fi_target := 600000
        fi_achieved := false
        fi_age := none
        fi_year_achieved := none } }

theorem ex1_run : simulate_scenario ex1 1 (3/100) (1/4) = some ex1Result := by
  norm_num [simulate_scenario, runYears, simStep, stepRecord, initState, careerPair,
    majorExpensesThisYear, debtStep, efStep, mkSummary, fiTargetOf, fiScan, List.find?,
    ex1, ex1Result, min_def, max_def]

theorem index_lt {sc : Scenario} {i t : ℚ} {years k : ℕ} {rec : YearRecord}
    (hk : (runYears sc i t years).yearly_data[k]? = some rec) : k < years := by
  have h := (List.getElem?_eq_some_iff.mp hk).1
  rwa [runYears_length] at h

theorem rec_eq {sc : Scenario} {i t : ℚ} {years k : ℕ} {rec : YearRecord}
    (hk : (runYears sc i t years).yearly_data[k]? = some rec) :
    rec = stepRecord sc i t k (runYears sc i t k) := by
  have hlt := index_lt hk
  have h := runYears_getElem sc i t hlt
  rw [h] at hk
  exact (Option.some.inj hk).symm

/-- The value `fi_target` always equals `expenses / 0.04` on non-negative expenses: the
`else 0` branch only fires when the expenses are `0`, and `0 / 0.04 = 0`. -/
theorem fiTargetOf_of_nonneg {x : ℚ} (hx : 0 ≤ x) : fiTargetOf x = x / (0.04 : ℚ) := by
  unfold fiTargetOf
  rcases lt_or_eq_of_le hx with h | h
  · rw [if_pos h]
  · rw [if_neg (by rw [← h]; exact lt_irrefl 0), ← h]
    norm_num

/-- A scenario with no activity at all (used in the comparison example). -/
def scenA : Scenario :=
  { starting_age := 30
    starting_salary := 0
    salary_growth_rate := 0
    monthly_expenses := 0
    savings_rate := 0
    investment_return_rate := 0
    student_debt := 0
    major_expenses := []
    career_changes := [] }

/-- A scenario earning 100 a year, saving all of it (comparison example). -/
def scenB : Scenario :=
  { starting_age := 30
    starting_salary := 100
    salary_growth_rate := 0
    monthly_expenses := 0
    savings_rate := 1
    investment_return_rate := 0
    student_debt := 0
    major_expenses := []
    career_changes := [] }

def runA : SimulationResult :=
  { yearly_data :=
      [{ year_idx := 0
         year_display := 1
         age := 30
         gross_salary := 0
         taxes := 0
         after_tax_income := 0
         living_expenses_inflation_adj := 0
         inflation_multiplier := 1
         monthly_expenses_base := 0
         monthly_expenses_display := 0
         major_expenses_this_year := 0
         debt_payment_this_year := 0
         emergency_fund_target := 0
         emergency_fund_contrib := 0
         investment_contrib := 0
         investment_growth_this_year := 0
         annual_total_savings := 0
         liquid_savings_total := 0
         investment_portfolio_total := 0
         debt_balance_current := 0
         net_worth := 0 }]
    summary :=
      { total_earned := 0
        total_taxes := 0
        total_saved := 0
        total_spent := 0
        final_net_worth := 0
        final_age := 31
        liquid_savings_final := 0
        investment_portfolio_final := 0
        remaining_debt_final := 0
        fi_target := 0
        fi_achieved := true
        fi_age := some 30
        fi_year_achieved := some 1 } }

def runB : SimulationResult :=
  { yearly_data :=
      [{ year_idx := 0
         year_display := 1
         age := 30
         gross_salary := 100
         taxes := 0
         after_tax_income := 100
         living_expenses_inflation_adj := 0
         inflation_multiplier := 1
         monthly_expenses_base := 0
         monthly_expenses_display := 0
         major_expenses_this_year := 0
         debt_payment_this_year := 0
         emergency_fund_target := 0
         emergency_fund_contrib := 0
         investment_contrib := 100
         investment_growth_this_year := 0
         annual_total_savings := 100
         liquid_savings_total := 0
         investment_portfolio_total := 100
         debt_balance_current := 0
         net_worth := 100 }]
    summary :=
      { total_earned := 100
        total_taxes := 0
        total_saved := 100
        total_spent := 0
        final_net_worth := 100
        final_age := 31
        liquid_savings_final := 0
        investment_portfolio_final := 100
        remaining_debt_final := 0
        fi_target := 0
        fi_achieved := true
        fi_age := some 30
        fi_year_achieved := some 1 } }

theorem scenA_run : simulate_scenario scenA 1 0 0 = some runA := by
  norm_num [simulate_scenario, runYears, simStep, stepRecord, initState, careerPair,
    majorExpensesThisYear, debtStep, efStep, mkSummary, fiTargetOf, fiScan, List.find?,
    scenA, runA, min_def, max_def]

theorem scenB_run : simulate_scenario scenB 1 0 0 = some runB := by
  norm_num [simulate_scenario, runYears, simStep, stepRecord, initState, careerPair,
    majorExpensesThisYear, debtStep, efStep, mkSummary, fiTargetOf, fiScan, List.find?,
    scenB, runB, min_def, max_def]

/-- A scenario the spec calls malformed: negative monthly expenses and a
savings rate above 1. -/
def invalidEx : Scenario :=
  { starting_age := 40
    starting_salary := 1000
    salary_growth_rate := 0
    monthly_expenses := -1
    savings_rate := 2
    investment_return_rate := 0
    student_debt := 0
    major_expenses := []
    career_changes := [] }

/-- The spec's debt-payoff example: `studentDebt = 50000`, no other activity. -/
def debtEx : Scenario :=
  { starting_age := 22
    starting_salary := 0
    salary_growth_rate := 0
    monthly_expenses := 0
    savings_rate := 0
    investment_return_rate := 0
    student_debt := 50000
    major_expenses := []
    career_changes := [] }

def debtEx1Result : SimulationResult :=
  { yearly_data :=
      [{ year_idx := 0
         year_display := 1
         age := 22
         gross_salary := 0
         taxes := 0
         after_tax_income := 0
         living_expenses_inflation_adj := 0
         inflation_multiplier := 1
         monthly_expenses_base := 0
         monthly_expenses_display := 0
         major_expenses_this_year := 0
         debt_payment_this_year := 5000
         emergency_fund_target := 0
         emergency_fund_contrib := 0
         investment_contrib := 0
         investment_growth_this_year := 0
         annual_total_savings := 0
         liquid_savings_total := 0
         investment_portfolio_total := 0
         debt_balance_current := 45000
         net_worth := -45000 }]
    summary :=
      { total_earned := 0
        total_taxes := 0
        total_saved := 0
        total_spent := 0
        final_net_worth := -45000
        final_age := 23
        liquid_savings_final := 0
        investment_portfolio_final := 0
        remaining_debt_final := 45000
        fi_target := 0
        fi_achieved := true
        fi_age := some 22
        fi_year_achieved := some 1 } }

theorem debtEx_run1 : simulate_scenario debtEx 1 0 0 = some debtEx1Result := by
  norm_num [simulate_scenario, runYears, simStep, stepRecord, initState, careerPair,
    majorExpensesThisYear, debtStep, efStep, mkSummary, fiTargetOf, fiScan, List.find?,
    debtEx, debtEx1Result, min_def, max_def]

/-! ### The claims -/

/-- C1 (amended): for the spec's scenario example 1 run with `years = 1`,
`inflationRate = 0.03`, `taxRate = 0.25`, the single YearRecord has
grossSalary 60000, taxes 15000, after-tax income 45000, living expenses 24000,
emergency-fund contribution `min(0.5 × 21000, 12000) = 10500` (the code's
factor is 0.5), remaining disposable 10500, investment contribution
`10500 × 0.2 = 2100`, investment growth 0, and ending net worth
`10500 + 2100 = 12600`; the result equals `ex1Result` field by field. -/
theorem C1_scenario_example : simulate_scenario ex1 1 (3/100) (1/4) = some ex1Result :=
  ex1_run

/-- C1 counterexample: the claim's emergency-fund contribution (6300) and
ending net worth (9240) are not what the code produces on the claim's own
input — the code contributes 10500 and ends at net worth 12600. -/
theorem C1_counterexample :
    (simulate_scenario ex1 1 (3/100) (1/4)).map
        (fun r => r.yearly_data.map (fun y => y.emergency_fund_contrib)) = some [10500]
      ∧ (simulate_scenario ex1 1 (3/100) (1/4)).map
          (fun r => r.summary.final_net_worth) = some 12600
      ∧ ((10500 : ℚ) ≠ 6300) ∧ ((12600 : ℚ) ≠ 9240) := by
  refine ⟨?_, ?_, by norm_num, by norm_num⟩ <;> rw [ex1_run] <;> rfl

/-- C2 (amended): `simulate_scenario` performs no input validation at all —
there is no `InvalidScenario` error.  For `years = 0` the call fails (the
Python code raises `IndexError` on `yearly_data[years-1]`, modelled as
`none`), and for every `years ≥ 1` it succeeds on *every* scenario record,
malformed fields included, returning a full `years`-length sequence. -/
theorem C2_no_validation (sc : Scenario) (years : ℕ) (i t : ℚ) :
    (years = 0 → simulate_scenario sc years i t = none)
      ∧ (1 ≤ years → ∃ r, simulate_scenario sc years i t = some r
          ∧ r.yearly_data.length = years) := by
  constructor
  · rintro rfl
    exact simulate_zero sc i t
  · intro hy
    exact simulate_total sc i t hy

theorem C2_no_validation_witness :
    (simulate_scenario ex1 0 (3/100) (1/4) = none)
      ∧ (∃ r, simulate_scenario ex1 2 (3/100) (1/4) = some r ∧ r.yearly_data.length = 2) :=
  ⟨(C2_no_validation ex1 0 (3/100) (1/4)).1 rfl,
   (C2_no_validation ex1 2 (3/100) (1/4)).2 (by norm_num)⟩

/-- C2 counterexample: a scenario with `monthlyExpenses = -1 < 0` and
`savingsRate = 2 ∉ [0,1]` is simulated without any error: no validation ever
runs, contradicting the claim that such inputs fail with `InvalidScenario`. -/
theorem C2_counterexample :
    invalidEx.monthly_expenses < 0
      ∧ ¬((0:ℚ) ≤ invalidEx.savings_rate ∧ invalidEx.savings_rate ≤ 1)
      ∧ (simulate_scenario invalidEx 1 0 0).isSome = true := by
  refine ⟨by norm_num [invalidEx], by norm_num [invalidEx], ?_⟩
  obtain ⟨r, hr, _⟩ := simulate_total invalidEx 0 0 (le_refl 1)
  rw [hr]
  rfl

/-- C3 (amended): the comparison's differences are taken in the
result2-minus-result1 direction: `net_worth_diff` is
`result2.final − result1.final` and `earned_diff` is
`result2.totalEarned − result1.totalEarned`, for any two simulation
results. -/
theorem C3_comparison_direction (sc1 sc2 : Scenario) (years : ℕ) (i t : ℚ)
    (r1 r2 : SimulationResult)
    (h1 : simulate_scenario sc1 years i t = some r1)
    (h2 : simulate_scenario sc2 years i t = some r2) :
    net_worth_diff r1.summary r2.summary
        = r2.summary.final_net_worth - r1.summary.final_net_worth
      ∧ earned_diff r1.summary r2.summary
        = r2.summary.total_earned - r1.summary.total_earned :=
  ⟨rfl, rfl⟩

theorem C3_comparison_direction_witness :
    (simulate_scenario scenA 1 0 0 = some runA)
      ∧ (simulate_scenario scenB 1 0 0 = some runB)
      ∧ net_worth_diff runA.summary runB.summary
          = runB.summary.final_net_worth - runA.summary.final_net_worth
      ∧ earned_diff runA.summary runB.summary
          = runB.summary.total_earned - runA.summary.total_earned :=
  ⟨scenA_run, scenB_run,
   (C3_comparison_direction scenA scenB 1 0 0 runA runB scenA_run scenB_run).1,
   (C3_comparison_direction scenA scenB 1 0 0 runA runB scenA_run scenB_run).2⟩

/-- C3 counterexample: with result1 the zero scenario (final net worth 0) and
result2 the earning scenario (final net worth 100), the code's difference is
`100 − 0 = 100`, not the claim's `result1 − result2 = −100`. -/
theorem C3_counterexample :
    (simulate_scenario scenA 1 0 0 = some runA)
      ∧ (simulate_scenario scenB 1 0 0 = some runB)
      ∧ net_worth_diff runA.summary runB.summary = 100
      ∧ runA.summary.final_net_worth - runB.summary.final_net_worth = -100
      ∧ ((100 : ℚ) ≠ -100) := by
  refine ⟨scenA_run, scenB_run, ?_, ?_, by norm_num⟩ <;> norm_num [net_worth_diff, runA, runB]

/-- C4: for every scenario with non-negative student debt, a year that starts
with a positive debt balance pays exactly
`min(original studentDebt / 10, current balance)`; the balance is
non-increasing and never negative; and on the spec's 50000-debt example the
balance hits 0 exactly at display year 10 and stays 0 for years 11 and 12. -/
theorem C4_debt (sc : Scenario) (years : ℕ) (i t : ℚ) (r : SimulationResult)
    (hd : 0 ≤ sc.student_debt) (hr : simulate_scenario sc years i t = some r) :
    (∀ (k : ℕ) (rec rec2 : YearRecord),
        r.yearly_data[k]? = some rec → r.yearly_data[k + 1]? = some rec2 →
        (0 < rec.debt_balance_current →
          rec2.debt_payment_this_year = min (sc.student_debt / 10) rec.debt_balance_current)
        ∧ rec2.debt_balance_current ≤ rec.debt_balance_current)
      ∧ (∀ (rec0 : YearRecord), r.yearly_data[0]? = some rec0 →
          (0 < sc.student_debt →
            rec0.debt_payment_this_year = min (sc.student_debt / 10) sc.student_debt)
          ∧ rec0.debt_balance_current ≤ sc.student_debt)
      ∧ (∀ (k : ℕ) (rec : YearRecord), r.yearly_data[k]? = some rec → 0 ≤ rec.debt_balance_current)
      ∧ (simulate_scenario debtEx 12 0 0).map
            (fun rr => rr.yearly_data.map (fun y => y.debt_balance_current))
          = some [45000, 40000, 35000, 30000, 25000, 20000, 15000, 10000, 5000, 0, 0, 0] := by
  obtain ⟨hy, hdata, _⟩ := simulate_some_inv sc i t hr
  refine ⟨?_, ?_, ?_, ?_⟩
  · intro k rec rec2 hk hk1
    rw [hdata] at hk hk1
    have hrec := rec_eq hk
    have hrec2 := rec_eq hk1
    have hbal : rec.debt_balance_current = (runYears sc i t (k + 1)).debt_balance := by
      rw [hrec, runYears_debt_succ]
    constructor
    · intro hpos
      rw [hbal] at hpos
      have hsd : 0 < sc.student_debt := lt_of_lt_of_le hpos (runYears_debt_le_init sc i t (k + 1))
      rw [hrec2, stepRecord_debt_payment, hbal, debtStep_of_pos hpos hsd]
    · rw [hrec2, stepRecord_debt_balance, hbal]
      exact debtStep_balance_le _ _
  · intro rec0 h0
    rw [hdata] at h0
    have hrec := rec_eq h0
    have hinit : (runYears sc i t 0).debt_balance = sc.student_debt := rfl
    constructor
    · intro hsd
      rw [hrec, stepRecord_debt_payment, hinit, debtStep_of_pos hsd hsd]
    · rw [hrec, stepRecord_debt_balance, hinit]
      exact debtStep_balance_le _ _
  · intro k rec hk
    rw [hdata] at hk
    rw [rec_eq hk, stepRecord_debt_balance]
    exact debtStep_balance_nonneg (runYears_debt_nonneg sc i t hd (k + 1 - 1))
  · norm_num [simulate_scenario, runYears, simStep, stepRecord, initState, careerPair,
      majorExpensesThisYear, debtStep, efStep, debtEx, min_def, max_def]

theorem C4_debt_witness :
    ((0:ℚ) ≤ debtEx.student_debt)
      ∧ (simulate_scenario debtEx 1 0 0 = some debtEx1Result)
      ∧ (∀ (k : ℕ) (rec : YearRecord),
          debtEx1Result.yearly_data[k]? = some rec → 0 ≤ rec.debt_balance_current) :=
  ⟨by norm_num [debtEx], debtEx_run1,
   (C4_debt debtEx 1 0 0 debtEx1Result (by norm_num [debtEx]) debtEx_run1).2.2.1⟩

/-- C5: the FI target is the final year's inflation-adjusted living expenses
divided by 0.04; FI is achieved iff some record's investment portfolio (not
net worth) reaches the target; and the first crossing at 0-based index `j` is
reported as display year `j + 1` with age `startingAge + j`. -/
theorem C5_fi (sc : Scenario) (years : ℕ) (i t : ℚ) (r : SimulationResult)
    (hm : 0 ≤ sc.monthly_expenses) (hi : 0 ≤ i)
    (hr : simulate_scenario sc years i t = some r) :
    (∀ (lastRec : YearRecord), r.yearly_data[years - 1]? = some lastRec →
        r.summary.fi_target = lastRec.living_expenses_inflation_adj / (0.04 : ℚ))
      ∧ (r.summary.fi_achieved = true
          ↔ ∃ rec ∈ r.yearly_data, r.summary.fi_target ≤ rec.investment_portfolio_total)
      ∧ (∀ (j : ℕ) (rec : YearRecord), r.yearly_data[j]? = some rec →
          r.summary.fi_target ≤ rec.investment_portfolio_total →
          (∀ (k : ℕ) (rec2 : YearRecord), k < j → r.yearly_data[k]? = some rec2 →
            rec2.investment_portfolio_total < r.summary.fi_target) →
          r.summary.fi_year_achieved = some (j + 1)
            ∧ r.summary.fi_age = some (sc.starting_age + (j : ℤ))) := by
  obtain ⟨hy, hdata, lastRec, hlast, hsum⟩ := simulate_some_inv sc i t hr
  have hliving : 0 ≤ lastRec.living_expenses_inflation_adj := by
    rw [rec_eq hlast, stepRecord_living]
    have hp : (0:ℚ) ≤ (1 + i) ^ (years - 1) := pow_nonneg (by linarith) _
    have := mul_nonneg hm hp
    nlinarith
  have hT : r.summary.fi_target = fiTargetOf lastRec.living_expenses_inflation_adj := by
    rw [hsum, mkSummary_fi_target]
  refine ⟨?_, ?_, ?_⟩
  · intro lr hlr
    rw [hdata] at hlr
    have hlr2 : lastRec = lr := Option.some.inj (hlast.symm.trans hlr)
    rw [hT, ← hlr2]
    exact fiTargetOf_of_nonneg hliving
  · rw [hsum, mkSummary_fi_achieved, mkSummary_fi_target, hdata]
    simp [fiScan, List.find?_isSome]
  · intro j rec hj hge hless
    rw [hdata] at hj
    have hrec := rec_eq hj
    have hfind : fiScan (fiTargetOf lastRec.living_expenses_inflation_adj)
        (runYears sc i t years).yearly_data = some rec := by
      show ((runYears sc i t years).yearly_data).find?
          (fun y => decide (fiTargetOf lastRec.living_expenses_inflation_adj
            ≤ y.investment_portfolio_total)) = some rec
      apply find_of_first _ _ j
      · exact hj
      · simp only [decide_eq_true_eq]
        rw [← hT]
        exact hge
      · intro k y hk hky
        have hlt := hless k y hk (by rw [hdata]; exact hky)
        rw [hT] at hlt
        exact decide_eq_false (not_le.mpr hlt)
    constructor
    · rw [hsum, mkSummary_fi_year, hfind, Option.map_some']
      rw [hrec, stepRecord_year_display]
    · rw [hsum, mkSummary_fi_age, hfind, Option.map_some']
      rw [hrec, stepRecord_age]

theorem C5_fi_witness :
    ((0:ℚ) ≤ ex1.monthly_expenses) ∧ ((0:ℚ) ≤ 3/100)
      ∧ (simulate_scenario ex1 1 (3/100) (1/4) = some ex1Result)
      ∧ (∀ (lastRec : YearRecord), ex1Result.yearly_data[0]? = some lastRec →
          ex1Result.summary.fi_target = lastRec.living_expenses_inflation_adj / (0.04 : ℚ)) :=
  ⟨by norm_num [ex1], by norm_num, ex1_run,
   (C5_fi ex1 1 (3/100) (1/4) ex1Result (by norm_num [ex1]) (by norm_num) ex1_run).1⟩

/-- C6: each year's investment growth is the portfolio balance at year start
(the previous record's ending balance; 0 in the first year) times
`investmentReturnRate`, and the new balance is the old balance plus that
growth plus the year's contribution — never growth on the post-contribution
balance. -/
theorem C6_growth_policy (sc : Scenario) (years : ℕ) (i t : ℚ) (r : SimulationResult)
    (hr : simulate_scenario sc years i t = some r) :
    (∀ (k : ℕ) (rec rec2 : YearRecord),
        r.yearly_data[k]? = some rec → r.yearly_data[k + 1]? = some rec2 →
        rec2.investment_growth_this_year
          = rec.investment_portfolio_total * sc.investment_return_rate
        ∧ rec2.investment_portfolio_total
          = rec.investment_portfolio_total + rec2.investment_growth_this_year
              + rec2.investment_contrib)
      ∧ (∀ (rec0 : YearRecord), r.yearly_data[0]? = some rec0 →
          rec0.investment_growth_this_year = 0
          ∧ rec0.investment_portfolio_total = rec0.investment_contrib) := by
  obtain ⟨hy, hdata, _⟩ := simulate_some_inv sc i t hr
  constructor
  · intro k rec rec2 hk hk1
    rw [hdata] at hk hk1
    have h1 := rec_eq hk
    have h2 := rec_eq hk1
    have hport : rec.investment_portfolio_total
        = (runYears sc i t (k + 1)).investment_portfolio := by
      rw [h1, runYears_portfolio_succ]
    constructor
    · rw [h2, stepRecord_growth, hport]
    · rw [h2, hport, stepRecord_portfolio_total, stepRecord_growth]
      ring
  · intro rec0 h0
    rw [hdata] at h0
    have h1 := rec_eq h0
    have hzero : (runYears sc i t 0).investment_portfolio = 0 := rfl
    constructor
    · rw [h1, stepRecord_growth, hzero, zero_mul]
    · rw [h1, stepRecord_portfolio_total, stepRecord_growth, hzero, zero_mul]
      ring

theorem C6_growth_policy_witness :
    (simulate_scenario ex1 1 (3/100) (1/4) = some ex1Result)
      ∧ (∀ (rec0 : YearRecord), ex1Result.yearly_data[0]? = some rec0 →
          rec0.investment_growth_this_year = 0
          ∧ rec0.investment_portfolio_total = rec0.investment_contrib) :=
  ⟨ex1_run, (C6_growth_policy ex1 1 (3/100) (1/4) ex1Result ex1_run).2⟩

/-- C7: at the moment of each year's emergency-fund contribution the
liquid-savings balance never exceeds that year's emergency-fund target, and
that target is `0.5 ×` the year's inflation-adjusted annual living expenses
(i.e. 6 months of them). -/
theorem C7_ef_cap (sc : Scenario) (years : ℕ) (i t : ℚ) (r : SimulationResult)
    (hm : 0 ≤ sc.monthly_expenses) (hi : 0 ≤ i)
    (hr : simulate_scenario sc years i t = some r) :
    ∀ (k : ℕ) (rec : YearRecord), r.yearly_data[k]? = some rec →
      rec.liquid_savings_total ≤ rec.emergency_fund_target
      ∧ rec.emergency_fund_target = (0.5 : ℚ) * rec.living_expenses_inflation_adj := by
  obtain ⟨hy, hdata, _⟩ := simulate_some_inv sc i t hr
  intro k rec hk
  rw [hdata] at hk
  have hrec := rec_eq hk
  constructor
  · rw [hrec]
    have hup := stepRecord_liquid_upper sc i t k (runYears sc i t k)
    have hle := runYears_liquid_le_target sc i t hm hi k
    rw [stepRecord_ef_target] at hup ⊢
    exact le_trans hup (max_le hle (le_refl _))
  · rw [hrec, stepRecord_ef_target, stepRecord_living]
    ring

theorem C7_ef_cap_witness :
    ((0:ℚ) ≤ ex1.monthly_expenses) ∧ ((0:ℚ) ≤ 3/100)
      ∧ (simulate_scenario ex1 1 (3/100) (1/4) = some ex1Result)
      ∧ ∀ (k : ℕ) (rec : YearRecord), ex1Result.yearly_data[k]? = some rec →
          rec.liquid_savings_total ≤ rec.emergency_fund_target
          ∧ rec.emergency_fund_target = (0.5 : ℚ) * rec.living_expenses_inflation_adj :=
  ⟨by norm_num [ex1], by norm_num, ex1_run,
   C7_ef_cap ex1 1 (3/100) (1/4) ex1Result (by norm_num [ex1]) (by norm_num) ex1_run⟩

/-- C8: with `monthlyExpenses = 0` and any positive horizon, the FI target is
0 and FI is reported achieved at the very first record: `fiAchieved = true`,
`fiYear = 1`, `fiAge = startingAge`. -/
theorem C8_zero_expenses (sc : Scenario) (years : ℕ) (i t : ℚ)
    (hm : sc.monthly_expenses = 0) (hy : 1 ≤ years) :
    ∃ r, simulate_scenario sc years i t = some r
      ∧ r.summary.fi_target = 0
      ∧ r.summary.fi_achieved = true
      ∧ r.summary.fi_year_achieved = some 1
      ∧ r.summary.fi_age = some sc.starting_age := by
  obtain ⟨lastRec, hlast, heq⟩ := simulate_eq_some sc i t hy
  have hliving : lastRec.living_expenses_inflation_adj = 0 := by
    rw [rec_eq hlast, stepRecord_living, hm]
    ring
  have hTzero : fiTargetOf lastRec.living_expenses_inflation_adj = 0 := by
    rw [hliving]
    unfold fiTargetOf
    rw [if_neg (lt_irrefl 0)]
  have h0 : (runYears sc i t years).yearly_data[0]?
      = some (stepRecord sc i t 0 (runYears sc i t 0)) := runYears_getElem sc i t (by omega)
  set rec0 := stepRecord sc i t 0 (runYears sc i t 0) with hrec0
  have hport : 0 ≤ rec0.investment_portfolio_total := by
    rw [hrec0, stepRecord_portfolio_total, stepRecord_growth]
    have hz : (runYears sc i t 0).investment_portfolio = 0 := rfl
    rw [hz, zero_mul]
    have hc := stepRecord_contrib_nonneg sc i t 0 (runYears sc i t 0)
    linarith
  have hfind : fiScan (fiTargetOf lastRec.living_expenses_inflation_adj)
      (runYears sc i t years).yearly_data = some rec0 := by
    show ((runYears sc i t years).yearly_data).find?
        (fun y => decide (fiTargetOf lastRec.living_expenses_inflation_adj
          ≤ y.investment_portfolio_total)) = some rec0
    apply find_of_first _ _ 0
    · exact h0
    · simp only [decide_eq_true_eq]
      rw [hTzero]
      exact hport
    · intro k y hk hky
      exact absurd hk (Nat.not_lt_zero k)
  refine ⟨_, heq, ?_, ?_, ?_, ?_⟩
  · show (mkSummary sc years (runYears sc i t years) lastRec).fi_target = 0
    rw [mkSummary_fi_target, hTzero]
  · show (mkSummary sc years (runYears sc i t years) lastRec).fi_achieved = true
    rw [mkSummary_fi_achieved, hfind]
    rfl
  · show (mkSummary sc years (runYears sc i t years) lastRec).fi_year_achieved = some 1
    rw [mkSummary_fi_year, hfind, Option.map_some', hrec0, stepRecord_year_display]
  · show (mkSummary sc years (runYears sc i t years) lastRec).fi_age = some sc.starting_age
    rw [mkSummary_fi_age, hfind, Option.map_some', hrec0, stepRecord_age]
    simp

theorem C8_zero_expenses_witness :
    scenA.monthly_expenses = 0 ∧ (1:ℕ) ≤ 1
      ∧ ∃ r, simulate_scenario scenA 1 0 0 = some r
          ∧ r.summary.fi_target = 0
          ∧ r.summary.fi_achieved = true
          ∧ r.summary.fi_year_achieved = some 1
          ∧ r.summary.fi_age = some scenA.starting_age :=
  ⟨rfl, le_refl 1, C8_zero_expenses scenA 1 0 0 rfl (le_refl 1)⟩

/-- C9: with a non-negative investment return rate, the liquid-savings and
investment-portfolio balances are non-decreasing from record to record and
start non-negative — negative disposable income never draws balances down. -/
theorem C9_balances_monotone (sc : Scenario) (years : ℕ) (i t : ℚ) (r : SimulationResult)
    (hret : 0 ≤ sc.investment_return_rate)
    (hr : simulate_scenario sc years i t = some r) :
    (∀ (k : ℕ) (rec rec2 : YearRecord),
        r.yearly_data[k]? = some rec → r.yearly_data[k + 1]? = some rec2 →
        rec.liquid_savings_total ≤ rec2.liquid_savings_total
        ∧ rec.investment_portfolio_total ≤ rec2.investment_portfolio_total)
      ∧ (∀ (rec0 : YearRecord), r.yearly_data[0]? = some rec0 →
          0 ≤ rec0.liquid_savings_total ∧ 0 ≤ rec0.investment_portfolio_total) := by
  obtain ⟨hy, hdata, _⟩ := simulate_some_inv sc i t hr
  constructor
  · intro k rec rec2 hk hk1
    rw [hdata] at hk hk1
    have h1 := rec_eq hk
    have h2 := rec_eq hk1
    constructor
    · have hl : rec.liquid_savings_total = (runYears sc i t (k + 1)).liquid_savings := by
        rw [h1, runYears_liquid_succ]
      rw [hl, h2]
      exact stepRecord_liquid_lower sc i t (k + 1) (runYears sc i t (k + 1))
    · have hp : rec.investment_portfolio_total
          = (runYears sc i t (k + 1)).investment_portfolio := by
        rw [h1, runYears_portfolio_succ]
      rw [hp, h2]
      exact stepRecord_portfolio_lower sc i t (k + 1) (runYears sc i t (k + 1))
        (runYears_portfolio_nonneg sc i t hret (k + 1)) hret
  · intro rec0 h0
    rw [hdata] at h0
    have h1 := rec_eq h0
    have hzl : (runYears sc i t 0).liquid_savings = 0 := rfl
    have hzp : (runYears sc i t 0).investment_portfolio = 0 := rfl
    constructor
    · rw [h1]
      calc (0:ℚ) = (runYears sc i t 0).liquid_savings := hzl.symm
      _ ≤ _ := stepRecord_liquid_lower sc i t 0 (runYears sc i t 0)
    · rw [h1]
      calc (0:ℚ) = (runYears sc i t 0).investment_portfolio := hzp.symm
      _ ≤ _ := stepRecord_portfolio_lower sc i t 0 (runYears sc i t 0) (le_of_eq hzp.symm) hret

theorem C9_balances_monotone_witness :
    ((0:ℚ) ≤ ex1.investment_return_rate)
      ∧ (simulate_scenario ex1 1 (3/100) (1/4) = some ex1Result)
      ∧ (∀ (rec0 : YearRecord), ex1Result.yearly_data[0]? = some rec0 →
          0 ≤ rec0.liquid_savings_total ∧ 0 ≤ rec0.investment_portfolio_total) :=
  ⟨by norm_num [ex1], ex1_run,
   (C9_balances_monotone ex1 1 (3/100) (1/4) ex1Result (by norm_num [ex1]) ex1_run).2⟩

/-- C10: the summary mirrors the last YearRecord exactly — final net worth,
liquid savings, investment portfolio and remaining debt equal the last
record's ending values, and final age is `startingAge + years`. -/
theorem C10_summary_mirror (sc : Scenario) (years : ℕ) (i t : ℚ) (r : SimulationResult)
    (hy : 1 ≤ years) (hr : simulate_scenario sc years i t = some r) :
    r.summary.final_age = sc.starting_age + (years : ℤ)
      ∧ r.yearly_data.getLast?.isSome = true
      ∧ ∀ (last : YearRecord), r.yearly_data.getLast? = some last →
          r.summary.final_net_worth = last.net_worth
          ∧ r.summary.liquid_savings_final = last.liquid_savings_total
          ∧ r.summary.investment_portfolio_final = last.investment_portfolio_total
          ∧ r.summary.remaining_debt_final = last.debt_balance_current := by
  obtain ⟨hy2, hdata, lastRec, hlast, hsum⟩ := simulate_some_inv sc i t hr
  obtain ⟨n, rfl⟩ : ∃ n, years = n + 1 := ⟨years - 1, by omega⟩
  have hconcat : (runYears sc i t (n + 1)).yearly_data
      = (runYears sc i t n).yearly_data ++ [stepRecord sc i t n (runYears sc i t n)] := by
    rw [runYears_succ, simStep_yearly_data]
  have hgl : r.yearly_data.getLast? = some (stepRecord sc i t n (runYears sc i t n)) := by
    rw [hdata, hconcat, List.getLast?_concat]
  refine ⟨?_, ?_, ?_⟩
  · rw [hsum, mkSummary_final_age]
  · rw [hgl]
    rfl
  · intro last hlastrec
    have hl : stepRecord sc i t n (runYears sc i t n) = last :=
      Option.some.inj (hgl.symm.trans hlastrec)
    refine ⟨?_, ?_, ?_, ?_⟩
    · rw [hsum, mkSummary_final_net_worth, ← hl]
      exact runYears_net_worth_succ sc i t n
    · rw [hsum, mkSummary_liquid, ← hl]
      exact runYears_liquid_succ sc i t n
    · rw [hsum, mkSummary_portfolio, ← hl]
      exact runYears_portfolio_succ sc i t n
    · rw [hsum, mkSummary_debt, ← hl]
      exact runYears_debt_succ sc i t n

theorem C10_summary_mirror_witness :
    ((1:ℕ) ≤ 1)
      ∧ (simulate_scenario ex1 1 (3/100) (1/4) = some ex1Result)
      ∧ (ex1Result.summary.final_age = ex1.starting_age + ((1:ℕ) : ℤ)
          ∧ ex1Result.yearly_data.getLast?.isSome = true
          ∧ ∀ (last : YearRecord), ex1Result.yearly_data.getLast? = some last →
              ex1Result.summary.final_net_worth = last.net_worth
              ∧ ex1Result.summary.liquid_savings_final = last.liquid_savings_total
              ∧ ex1Result.summary.investment_portfolio_final = last.investment_portfolio_total
              ∧ ex1Result.summary.remaining_debt_final = last.debt_balance_current) :=
  ⟨le_refl 1, ex1_run, C10_summary_mirror ex1 1 (3/100) (1/4) ex1Result (le_refl 1) ex1_run⟩
